import Mathlib

/-!
Shallow embedding of the core pipeline of the misp-ddos-automation web
application (TypeScript sources under `webapp/frontend/src/services`), used to
check the natural-language specification against the code.

Conventions of the embedding:
* TypeScript string unions (e.g. `'direct-flood' | 'amplification' | 'other'`)
  are modelled as inductive types, TypeScript optional / possibly-absent fields
  as `Option`.
* JavaScript numbers are modelled exactly: integer counters as `Nat`, derived
  scores as `ℚ`; where a computation can produce the IEEE non-finite values
  `NaN`/`Infinity` (division by zero in `calculateSecurityPosture`), numbers
  are modelled by the inductive `JsNum` with the IEEE propagation rules of the
  operations the code uses.
* JavaScript string operations (`toLowerCase`, `includes`, `replace` of the
  first occurrence, blankness after `trim`) are modelled character-wise on
  `List Char` (the code only ever feeds them ASCII).
* File contents reach `validateCSVContent` after `content.split('\n')`; the
  embedding takes that list of lines as input.
* Indexing a plain object literal (`mapping[severity]`) is modelled with the
  `Object.prototype` chain included: a key that is neither an own property
  nor a prototype property name yields `undefined`, but prototype property
  names such as `toString` yield the inherited truthy value (`JsPropValue`).
-/

namespace MispDdos

/-! ### JavaScript string helpers -/

/-- Model of `String.prototype.toLowerCase` (ASCII). -/
def jsToLower (s : String) : String :=
  String.mk (s.data.map Char.toLower)

/-- Model of `String.prototype.toUpperCase` (ASCII). -/
def jsToUpper (s : String) : String :=
  String.mk (s.data.map Char.toUpper)

/-- Character-list core of `String.prototype.includes`: does `pat` occur as a
contiguous run inside the second argument? -/
def strContainsCA (pat : List Char) : List Char → Bool
  | [] => pat.isEmpty
  | c :: rest => pat.isPrefixOf (c :: rest) || strContainsCA pat rest

/-- Model of `s.includes(pat)`. -/
def jsIncludes (s pat : String) : Bool :=
  strContainsCA pat.data s.data

/-- Whitespace characters recognised by `String.prototype.trim` (ASCII part). -/
def jsWhitespaceChar (c : Char) : Bool :=
  c == ' ' || c == '\t' || c == '\n' || c == '\r'

/-- Model of "`line.trim()` is falsy": the line holds only whitespace. -/
def jsIsBlank (s : String) : Bool :=
  s.data.all jsWhitespaceChar

/-- Character-list core of `s.replace(pat, '')` for a string `pat`: remove the
first occurrence of `pat`, keep everything else. -/
def replaceFirstCA (pat : List Char) : List Char → List Char
  | [] => []
  | c :: rest =>
    if pat.isPrefixOf (c :: rest) then (c :: rest).drop pat.length
    else c :: replaceFirstCA pat rest

/-- Model of `s.replace(pat, '')` (first occurrence only, as in JavaScript). -/
def jsReplaceFirst (s pat : String) : String :=
  String.mk (replaceFirstCA pat.data s.data)

/-! ### Data model: `DDoSEvent` (webapp/frontend/src/types, `DDoSEvent`) -/

/-- The TypeScript union `'direct-flood' | 'amplification' | 'other'`. -/
inductive AttackType
  | directFlood
  | amplification
  | other
  deriving DecidableEq

/-- The TypeScript union `'low' | 'medium' | 'high' | 'critical'`. -/
inductive Severity
  | low
  | medium
  | high
  | critical
  deriving DecidableEq

/-- The string carried by a `Severity` value in TypeScript. -/
def Severity.str : Severity → String
  | .low => "low"
  | .medium => "medium"
  | .high => "high"
  | .critical => "critical"

/-- Interface `DDoSEvent` (fields the compiler reads). -/
structure DDoSEvent where
  title : String
  description : String
  attacker_ips : List String
  victim_ips : List String
  attack_ports : List String
  attack_type : AttackType
  severity : Severity
  deriving DecidableEq

/-- One element of the `Attribute` array built by `buildAttributes`; the
`comment` field is absent on the description attribute, hence `Option`. -/
structure MISPAttribute where
  category : String
  type : String
  value : String
  to_ids : Bool
  comment : Option String
  deriving DecidableEq

/-! ### Compliance Compiler (mispApi.ts, `MISPApiService`) -/

/-- The lookup table inside `mapSeverityToThreatLevel` (the object literal's
own properties). -/
def severityThreatMapping : List (String × String) :=
  [("critical", "1"), ("high", "1"), ("medium", "2"), ("low", "3")]

/-- The property names a plain JavaScript object literal inherits from
`Object.prototype`; indexing the literal with one of these yields the
inherited (truthy, non-string) value, not `undefined`. -/
def objectPrototypeKeys : List String :=
  ["constructor", "hasOwnProperty", "isPrototypeOf", "propertyIsEnumerable",
   "toLocaleString", "toString", "valueOf", "__proto__",
   "__defineGetter__", "__defineSetter__", "__lookupGetter__", "__lookupSetter__"]

/-- The value of a JavaScript property read `obj[key]` on a string-valued
object literal: one of the literal's own string values, a value inherited
from `Object.prototype` (a function or object, never a string), or
`undefined`. -/
inductive JsPropValue
  | str (s : String)
  | inherited (key : String)
  | undefined
  deriving DecidableEq

/-- `obj[key]` on an object literal with string values: own property first,
then the `Object.prototype` chain, then `undefined`. -/
def jsObjLookup (props : List (String × String)) (key : String) : JsPropValue :=
  match props.lookup key with
  | some v => .str v
  | none =>
    if objectPrototypeKeys.contains key then .inherited key else .undefined

/-- JavaScript truthiness of a property value: the empty string and
`undefined` are falsy, every inherited function/object is truthy. -/
def jsTruthy : JsPropValue → Bool
  | .str s => !(s == "")
  | .inherited _ => true
  | .undefined => false

/-- `mapSeverityToThreatLevel` (mispApi.ts): `mapping[severity] || '4'` on a
plain object literal — the property read includes the `Object.prototype`
chain, and `|| '4'` replaces only falsy results. -/
def mapSeverityToThreatLevel (severity : String) : JsPropValue :=
  let v := jsObjLookup severityThreatMapping severity
  if jsTruthy v then v else .str "4"

/-- `buildAttributes` (mispApi.ts): attacker IPs, then victim IPs, then ports,
then a comment attribute when the description is truthy (non-empty). -/
def buildAttributes (ddosData : DDoSEvent) : List MISPAttribute :=
  (ddosData.attacker_ips.map fun ip =>
    { category := "Network activity", type := "ip-src", value := ip,
      to_ids := true, comment := some "DDoS attack source IP" })
  ++ (ddosData.victim_ips.map fun ip =>
    { category := "Network activity", type := "ip-dst", value := ip,
      to_ids := true, comment := some "DDoS attack target IP" })
  ++ (ddosData.attack_ports.map fun port =>
    { category := "Network activity", type := "port", value := port,
      to_ids := false, comment := some "DDoS attack target port" })
  ++ (if ddosData.description ≠ "" then
    [{ category := "Other", type := "comment", value := ddosData.description,
       to_ids := false, comment := none }]
  else [])

/-- The galaxy-cluster tag pushed unconditionally by `buildTags`. -/
def networkDosGalaxyTag : String :=
  "misp-galaxy:mitre-attack-pattern=\"Network Denial of Service - T1498\""

/-- `buildTags` (mispApi.ts): the T1498 galaxy tag, then the attack-type
switch, then the severity switch. -/
def buildTags (ddosData : DDoSEvent) : List String :=
  [networkDosGalaxyTag]
  ++ (match ddosData.attack_type with
      | .directFlood => ["ddos:type=\"volumetric\""]
      | .amplification => ["ddos:type=\"reflection\""]
      | .other => ["ddos:type=\"application-layer\""])
  ++ (match ddosData.severity with
      | .critical => ["tlp:amber"]
      | .high => ["tlp:amber"]
      | .medium => ["tlp:green"]
      | .low => ["tlp:white"])

/-- The `Event` object POSTed by `createDDoSEvent` (its pure part). -/
structure MISPEventPayload where
  info : String
  threat_level_id : JsPropValue
  analysis : String
  distribution : String
  published : Bool
  attributes : List MISPAttribute
  tags : List String
  deriving DecidableEq

/-- The pure core of `createDDoSEvent` (mispApi.ts): the payload built before
the network request. -/
def buildMISPEventPayload (ddosData : DDoSEvent) : MISPEventPayload :=
  { info := ddosData.title
    threat_level_id := mapSeverityToThreatLevel ddosData.severity.str
    analysis := "2"
    distribution := "1"
    published := false
    attributes := buildAttributes ddosData
    tags := buildTags ddosData }

/-! ### Data model: `MISPEvent` (read path)

The TypeScript interface `MISPEvent` constrains `threat_level` to the union
`'1' | '2' | '3' | '4'`, modelled as an inductive.  Only the fields the
Classification Filter and Metrics Aggregator read are carried. -/

/-- The union `'1' | '2' | '3' | '4'` of `MISPEvent.threat_level`. -/
inductive ThreatLevelId
  | l1
  | l2
  | l3
  | l4
  deriving DecidableEq

/-- One element of `MISPEvent.tags`. -/
structure MISPTag where
  name : String
  colour : String
  deriving DecidableEq

/-- Interface `MISPEvent` (fields the read path consumes). -/
structure MISPEvent where
  threat_level : ThreatLevelId
  published : Bool
  tags : List MISPTag
  deriving DecidableEq

/-! ### Classification Filter -/

/-- `MISPApiService.isTlpRedEvent` (mispApi.ts): a tag name containing
`tlp:red` or `tlp-red`, case-insensitively. -/
def isTlpRedEvent (event : MISPEvent) : Bool :=
  event.tags.any fun tag =>
    jsIncludes (jsToLower tag.name) "tlp:red" ||
    jsIncludes (jsToLower tag.name) "tlp-red"

/-- `EventMetricsService.filterEventsByTLP` (fileProcessing.ts): with the flag
unset return the input unchanged, otherwise drop every event with a tag name
containing `tlp:red` case-insensitively. -/
def filterEventsByTLP (events : List MISPEvent)
    (excludeTlpRed : Bool := true) : List MISPEvent :=
  match excludeTlpRed with
  | false => events
  | true =>
    events.filter fun event =>
      !(event.tags.any fun tag => jsIncludes (jsToLower tag.name) "tlp:red")

/-! ### Metrics Aggregator (fileProcessing.ts, `EventMetricsService`)

`calculateMetrics` also produces a trailing-12-months histogram and a
recent-events list; both depend on the wall clock (`new Date()`), are outside
the pure fragment, and are not read by any claim, so they are not carried. -/

/-- The `eventsByThreatLevel` record of `EventMetrics`. -/
structure ThreatLevelBuckets where
  high : Nat
  medium : Nat
  low : Nat
  undefined : Nat
  deriving DecidableEq

/-- One entry of `tlpDistribution`. -/
structure TlpEntry where
  level : String
  count : Nat
  color : String
  deriving DecidableEq

/-- The `publishedVsUnpublished` record of `EventMetrics`. -/
structure PublishedSplit where
  published : Nat
  unpublished : Nat
  deriving DecidableEq

/-- Interface `EventMetrics` (time-independent fields). -/
structure EventMetrics where
  totalEvents : Nat
  eventsByThreatLevel : ThreatLevelBuckets
  tlpDistribution : List TlpEntry
  publishedVsUnpublished : PublishedSplit
  deriving DecidableEq

/-- The `tlpColors` table of `calculateTlpDistribution`. -/
def tlpColors : List (String × String) :=
  [("red", "#f44336"), ("amber", "#ff9800"), ("green", "#4caf50"),
   ("white", "#e0e0e0"), ("undefined", "#9e9e9e")]

/-- `tlpCounts[key] = (tlpCounts[key] || 0) + 1` on an insertion-ordered
record, as JavaScript objects with string keys are. -/
def bumpCount : List (String × Nat) → String → List (String × Nat)
  | [], key => [(key, 1)]
  | (k, n) :: rest, key =>
    if k = key then (k, n + 1) :: rest else (k, n) :: bumpCount rest key

/-- The per-event body of the `events.forEach` loop in
`calculateTlpDistribution`: bump one bucket per `tlp:`-containing tag, and the
`undefined` bucket when no tag matched. -/
def eventTlpFold (acc : List (String × Nat)) (event : MISPEvent) :
    List (String × Nat) :=
  let step := event.tags.foldl
    (fun (p : List (String × Nat) × Bool) tag =>
      let tagName := jsToLower tag.name
      if jsIncludes tagName "tlp:" then
        (bumpCount p.1 (jsReplaceFirst tagName "tlp:"), true)
      else p)
    (acc, false)
  if step.2 then step.1 else bumpCount step.1 "undefined"

/-- `EventMetricsService.calculateTlpDistribution` (fileProcessing.ts). -/
def calculateTlpDistribution (events : List MISPEvent) : List TlpEntry :=
  let counts := events.foldl eventTlpFold []
  counts.map fun kv =>
    { level := jsToUpper kv.1
      count := kv.2
      color := (tlpColors.lookup kv.1).getD "#9e9e9e" }

/-- `EventMetricsService.calculateMetrics` (fileProcessing.ts), restricted to
its time-independent fields. -/
def calculateMetrics (events : List MISPEvent) : EventMetrics :=
  { totalEvents := events.length
    eventsByThreatLevel :=
      { high := (events.filter fun e => decide (e.threat_level = .l1)).length
        medium := (events.filter fun e => decide (e.threat_level = .l2)).length
        low := (events.filter fun e => decide (e.threat_level = .l3)).length
        undefined := (events.filter fun e => decide (e.threat_level = .l4)).length }
    tlpDistribution := calculateTlpDistribution events
    publishedVsUnpublished :=
      { published := (events.filter fun e => e.published).length
        unpublished := (events.filter fun e => !e.published).length } }

/-! ### JavaScript numbers for `calculateSecurityPosture`

`calculateSecurityPosture` divides counters by `metrics.totalEvents`; on an
empty collection this is `0 / 0 = NaN` in JavaScript.  `JsNum` models a
JavaScript number as either a finite rational or one of the IEEE non-finite
values, with the propagation rules of the operations the function uses. -/

/-- A JavaScript number: finite, `NaN`, `Infinity`, or `-Infinity`. -/
inductive JsNum
  | num (q : ℚ)
  | nan
  | inf
  | ninf
  deriving DecidableEq

/-- Subtraction of JavaScript numbers. -/
def JsNum.sub : JsNum → JsNum → JsNum
  | num a, num b => num (a - b)
  | nan, _ => nan
  | num _, nan => nan
  | inf, nan => nan
  | ninf, nan => nan
  | inf, inf => nan
  | inf, ninf => inf
  | inf, num _ => inf
  | ninf, ninf => nan
  | ninf, inf => ninf
  | ninf, num _ => ninf
  | num _, inf => ninf
  | num _, ninf => inf

/-- Multiplication of a JavaScript number by a finite literal. -/
def JsNum.mulQ : JsNum → ℚ → JsNum
  | num a, c => num (a * c)
  | nan, _ => nan
  | inf, c => if 0 < c then inf else if c = 0 then nan else ninf
  | ninf, c => if 0 < c then ninf else if c = 0 then nan else inf

/-- Division of JavaScript numbers (`0 / 0 = NaN`, `x / 0 = ±Infinity`). -/
def JsNum.div : JsNum → JsNum → JsNum
  | num a, num b =>
    if b = 0 then (if a = 0 then nan else if 0 < a then inf else ninf)
    else num (a / b)
  | nan, _ => nan
  | num _, nan => nan
  | inf, nan => nan
  | ninf, nan => nan
  | inf, num b => if 0 ≤ b then inf else ninf
  | ninf, num b => if 0 ≤ b then ninf else inf
  | num _, inf => num 0
  | num _, ninf => num 0
  | inf, inf => nan
  | inf, ninf => nan
  | ninf, inf => nan
  | ninf, ninf => nan

/-- `Math.min` on two JavaScript numbers (`NaN` absorbs). -/
def JsNum.minJ : JsNum → JsNum → JsNum
  | nan, _ => nan
  | num _, nan => nan
  | inf, nan => nan
  | ninf, nan => nan
  | ninf, _ => ninf
  | num _, ninf => ninf
  | inf, ninf => ninf
  | inf, y => y
  | num a, inf => num a
  | num a, num b => num (min a b)

/-- `Math.max` on two JavaScript numbers (`NaN` absorbs). -/
def JsNum.maxJ : JsNum → JsNum → JsNum
  | nan, _ => nan
  | num _, nan => nan
  | inf, nan => nan
  | ninf, nan => nan
  | inf, _ => inf
  | num _, inf => inf
  | ninf, inf => inf
  | ninf, y => y
  | num a, ninf => num a
  | num a, num b => num (max a b)

/-- `EventMetricsService.calculateSecurityPosture` (fileProcessing.ts):
`100` minus the high-threat, unpublished and TLP:RED penalties, clamped by
`Math.max(0, Math.min(100, score))`. -/
def calculateSecurityPosture (metrics : EventMetrics) : JsNum :=
  let total : JsNum := .num metrics.totalEvents
  let s1 := JsNum.sub (.num 100)
    (JsNum.mulQ (JsNum.div (.num metrics.eventsByThreatLevel.high) total) 30)
  let s2 := JsNum.sub s1
    (JsNum.mulQ (JsNum.div (.num metrics.publishedVsUnpublished.unpublished) total) 20)
  let s3 :=
    match metrics.tlpDistribution.find? (fun t => t.level == "RED") with
    | some entry =>
      if 0 < entry.count then
        JsNum.sub s2 (JsNum.mulQ (JsNum.div (.num entry.count) total) 25)
      else s2
    | none => s2
  JsNum.maxJ (.num 0) (JsNum.minJ (.num 100) s3)

/-! ### Heuristic Quality Assessor
(`AIEnhancedFileProcessingService.preValidateFileWithAI`) -/

/-- The union `'high' | 'medium' | 'low'` of `AIProcessingResult`. -/
inductive ConfidenceLevel
  | high
  | medium
  | low
  deriving DecidableEq

/-- One parsed object of a structured (JSON) batch: the three fields the
pre-validation loop reads, each possibly absent. -/
structure JsonEvent where
  title : Option String
  attacker_ips : Option (List String)
  severity : Option String
  deriving DecidableEq

/-- The severity enum accepted by the pre-validation severity check. -/
def validSeverities : List String :=
  ["low", "medium", "high", "critical"]

/-- The body of the `events.forEach` loop of the JSON branch of
`preValidateFileWithAI`: the number of `dataIssues` increments this record
triggers (short title or falsy title; missing/empty attacker list; falsy or
invalid severity). -/
def recordIssues (event : JsonEvent) : Nat :=
  (match event.title with
   | none => 1
   | some t => if t = "" then 1 else if t.length < 10 then 1 else 0)
  + (match event.attacker_ips with
     | none => 1
     | some ips => if ips.length = 0 then 1 else 0)
  + (match event.severity with
     | none => 1
     | some s => if s = "" then 1 else if validSeverities.contains s then 0 else 1)

/-- `Math.round` on a finite JavaScript number (round half away from zero is
round half up for the non-negative scores that occur here). -/
def jsRound (q : ℚ) : ℤ :=
  ⌊q + 1 / 2⌋

/-- Interface `AIProcessingResult`, plus the local variable `qualityScore`
(the unrounded score the code derives `confidenceLevel` and the rounded
`dataQualityScore` from), carried so statements can refer to it. -/
structure AIProcessingResult where
  correctionsCount : Nat
  qualityScore : ℚ
  dataQualityScore : ℤ
  suggestedImprovements : List String
  confidenceLevel : ConfidenceLevel
  deriving DecidableEq

/-- The tail of `preValidateFileWithAI` shared by the CSV and JSON branches:
suggestions, `qualityScore`, `confidenceLevel` and the returned record, from
the branch's `dataIssues` and `totalRecords`. -/
def finishAssessment (dataIssues totalRecords : Nat) : AIProcessingResult :=
  let suggestions :=
    (if 0 < dataIssues then
      [toString dataIssues ++ " data quality issues detected that will be auto-corrected"]
    else [])
    ++ (if 100 < totalRecords then
      ["Large dataset detected - processing may take 2-3 minutes"]
    else [])
    ++ (if (3 : ℚ) / 10 < (dataIssues : ℚ) / ((max totalRecords 1 : ℕ) : ℚ) then
      ["Consider reviewing source data quality for future uploads"]
    else [])
  let qualityScore : ℚ :=
    max 0 (100 - ((dataIssues : ℚ) / ((max totalRecords 1 : ℕ) : ℚ)) * 100)
  let confidenceLevel :=
    if 80 < qualityScore then ConfidenceLevel.high
    else if 60 < qualityScore then ConfidenceLevel.medium
    else ConfidenceLevel.low
  { correctionsCount := dataIssues
    qualityScore := qualityScore
    dataQualityScore := jsRound qualityScore
    suggestedImprovements := suggestions
    confidenceLevel := confidenceLevel }

/-- The JSON branch of `preValidateFileWithAI`: `totalRecords` is the number
of parsed objects, `dataIssues` accumulates over the `forEach` loop. -/
def preValidateJSON (events : List JsonEvent) : AIProcessingResult :=
  finishAssessment
    (events.foldl (fun acc event => acc + recordIssues event) 0)
    events.length

/-! ### Structural Validator (`validateCSVContent`, fileProcessing.ts) -/

/-- The `requiredColumns` list of `validateCSVContent`. -/
def requiredColumns : List String :=
  ["title", "description", "attacker_ips", "victim_ips", "attack_type", "severity"]

/-- The two `Error`s `validateCSVContent` can throw, structured. -/
inductive CSVError
  | tooFewLines
  | missingColumns (cols : List String)
  deriving DecidableEq

/-- The message carried by each thrown `Error`. -/
def csvErrorMessage : CSVError → String
  | .tooFewLines => "CSV file must contain at least a header and one data row."
  | .missingColumns cols =>
    "CSV missing required columns: " ++ String.intercalate ", " cols

/-- `validateCSVContent` (fileProcessing.ts), taking the result of
`content.split('\n')`: drop blank lines, require a header plus a data row,
then require every required column name to occur in the lowercased header. -/
def validateCSVContent (splitLines : List String) : Except CSVError Unit :=
  let lines := splitLines.filter fun line => !(jsIsBlank line)
  if lines.length < 2 then .error .tooFewLines
  else
    let header := jsToLower (lines.headD "")
    let missing := requiredColumns.filter fun col => !(jsIncludes header col)
    if 0 < missing.length then .error (.missingColumns missing)
    else .ok ()

/-! ### Concrete records used in the checks -/

/-- The record parsed from the CSV row
`"T","D","1.2.3.4","5.6.7.8","80","direct-flood","high"`. -/
def c4Record : DDoSEvent :=
  { title := "T", description := "D", attacker_ips := ["1.2.3.4"],
    victim_ips := ["5.6.7.8"], attack_ports := ["80"],
    attack_type := .directFlood, severity := .high }

/-- A structured record with an 8-character title, an empty attacker list,
and no severity field. -/
def c8NoSeverityRecord : JsonEvent :=
  { title := some "12345678", attacker_ips := some [], severity := none }

/-- A structured record with an 8-character title, an empty attacker list,
and a valid severity. -/
def c8ValidSeverityRecord : JsonEvent :=
  { title := some "12345678", attacker_ips := some [], severity := some "high" }

/-- A tagless, unpublished, high-threat event. -/
def postureSampleEvent : MISPEvent :=
  { threat_level := .l1, published := false, tags := [] }

/-- An event whose only tag is named `tlp-red` (dash form). -/
def dashRedEvent : MISPEvent :=
  { threat_level := .l4, published := false,
    tags := [{ name := "tlp-red", colour := "#CC0033" }] }

/-- An event whose only tag is named `tlp:green`. -/
def greenEvent : MISPEvent :=
  { threat_level := .l1, published := true,
    tags := [{ name := "tlp:green", colour := "#33FF00" }] }

/-! ### Theorems -/

/-- C1: the mandatory global tag set demanded by the repository's own playbook
documentation (sensitivity marker, `information-security-indicators:incident-type="ddos"`,
`misp-event-type:incident`) is not emitted by `buildTags`: for every input
record, no tag produced by `buildTags` contains `incident-type`, and none
contains `misp-event-type`.  Together with the Network-DoS galaxy tag this
shows the compiled event never carries the incident-type and event-type
markers, contradicting the claimed invariant. -/
theorem c1_buildTags_emits_no_incident_or_event_type_marker (d : DDoSEvent) :
    (buildTags d).filter (fun tag => jsIncludes tag "incident-type") = [] ∧
    (buildTags d).filter (fun tag => jsIncludes tag "misp-event-type") = [] := by
  obtain ⟨t, ds, a, v, p, ty, sev⟩ := d
  cases ty <;> cases sev <;> exact ⟨rfl, rfl⟩

/-- C3 counterexample: the severity string `"toString"` is not in the table,
yet `mapping['toString']` finds the truthy function inherited from
`Object.prototype`, so `|| '4'` never applies and the function returns the
inherited value instead of `'4'`. -/
theorem c3_counterexample_prototype_key :
    mapSeverityToThreatLevel "toString" = JsPropValue.inherited "toString" := rfl

/-- C3 (amended): `mapSeverityToThreatLevel` sends `critical` and `high` to
`'1'`, `medium` to `'2'`, `low` to `'3'`, and every other string to `'4'` —
EXCEPT the property names inherited from `Object.prototype` (such as
`toString` or `constructor`), for which the lookup returns the inherited
truthy prototype value rather than `'4'`.  It is a total function, so it
never raises. -/
theorem c3_mapSeverityToThreatLevel_spec :
    mapSeverityToThreatLevel "critical" = JsPropValue.str "1" ∧
    mapSeverityToThreatLevel "high" = JsPropValue.str "1" ∧
    mapSeverityToThreatLevel "medium" = JsPropValue.str "2" ∧
    mapSeverityToThreatLevel "low" = JsPropValue.str "3" ∧
    (∀ severity : String, severity ∈ objectPrototypeKeys →
      mapSeverityToThreatLevel severity = JsPropValue.inherited severity) ∧
    ∀ severity : String, severity ≠ "critical" → severity ≠ "high" →
      severity ≠ "medium" → severity ≠ "low" →
      severity ∉ objectPrototypeKeys →
      mapSeverityToThreatLevel severity = JsPropValue.str "4" := by
  refine ⟨rfl, rfl, rfl, rfl, ?_, ?_⟩
  · intro s hs
    fin_cases hs <;> rfl
  · intro s h1 h2 h3 h4 hproto
    have e1 : (s == "critical") = false := beq_eq_false_iff_ne.mpr h1
    have e2 : (s == "high") = false := beq_eq_false_iff_ne.mpr h2
    have e3 : (s == "medium") = false := beq_eq_false_iff_ne.mpr h3
    have e4 : (s == "low") = false := beq_eq_false_iff_ne.mpr h4
    have e5 : objectPrototypeKeys.contains s = false := by
      cases hcc : objectPrototypeKeys.contains s
      · rfl
      · exact absurd (List.mem_of_elem_eq_true hcc) hproto
    simp [mapSeverityToThreatLevel, jsObjLookup, severityThreatMapping,
      List.lookup, jsTruthy, e1, e2, e3, e4, e5, hproto]

/-- C3 witness: a severity outside both the enum and the prototype chain
maps to `'4'`, and the prototype key `"constructor"` yields the inherited
value. -/
theorem c3_mapSeverityToThreatLevel_spec_witness :
    mapSeverityToThreatLevel "unknown" = JsPropValue.str "4" ∧
    mapSeverityToThreatLevel "constructor" = JsPropValue.inherited "constructor" :=
  ⟨c3_mapSeverityToThreatLevel_spec.2.2.2.2.2 "unknown"
    (by decide) (by decide) (by decide) (by decide) (by decide),
   c3_mapSeverityToThreatLevel_spec.2.2.2.2.1 "constructor" (by decide)⟩

/-- C4 counterexample: on the given record the compiler produces 4 attributes,
not 3 — the non-empty description `"D"` adds a comment attribute. -/
theorem c4_counterexample_four_attributes :
    (buildAttributes c4Record).length = 4 := rfl

/-- C4 (amended): on the given record the compiled event has threat level
`'1'`, its tags include the volumetric type marker and the amber sensitivity
marker, and it has exactly 4 attributes — one source address, one destination
address, one port, and one comment holding the description. -/
theorem c4_compiled_event_fields :
    (buildMISPEventPayload c4Record).threat_level_id = JsPropValue.str "1" ∧
    "ddos:type=\"volumetric\"" ∈ buildTags c4Record ∧
    "tlp:amber" ∈ buildTags c4Record ∧
    buildAttributes c4Record =
      [{ category := "Network activity", type := "ip-src", value := "1.2.3.4",
         to_ids := true, comment := some "DDoS attack source IP" },
       { category := "Network activity", type := "ip-dst", value := "5.6.7.8",
         to_ids := true, comment := some "DDoS attack target IP" },
       { category := "Network activity", type := "port", value := "80",
         to_ids := false, comment := some "DDoS attack target port" },
       { category := "Other", type := "comment", value := "D",
         to_ids := false, comment := none }] := by
  refine ⟨rfl, ?_, ?_, rfl⟩ <;> decide

/-- C2: with the exclusion flag at its default `true`, `filterEventsByTLP`
keeps exactly the events none of whose tag names contains `tlp:red`
case-insensitively — an event with such a tag is excluded, any other event
(including one with no sensitivity tag at all) is kept. -/
theorem c2_filterEventsByTLP_excludes_exactly_tlp_red
    (events : List MISPEvent) (e : MISPEvent) :
    e ∈ filterEventsByTLP events true ↔
      e ∈ events ∧ ∀ tag ∈ e.tags, jsIncludes (jsToLower tag.name) "tlp:red" = false := by
  simp [filterEventsByTLP, List.mem_filter, List.any_eq_false]

/-- C5: the four threat-level buckets of `calculateMetrics` always sum to
`totalEvents`, because `threat_level` ranges over the union
`'1' | '2' | '3' | '4'` and each event falls in exactly one bucket. -/
theorem c5_threat_buckets_sum_to_total (events : List MISPEvent) :
    (calculateMetrics events).eventsByThreatLevel.high
      + (calculateMetrics events).eventsByThreatLevel.medium
      + (calculateMetrics events).eventsByThreatLevel.low
      + (calculateMetrics events).eventsByThreatLevel.undefined
      = (calculateMetrics events).totalEvents := by
  simp only [calculateMetrics]
  induction events with
  | nil => rfl
  | cons e rest ih =>
    cases he : e.threat_level <;>
      simp [List.filter_cons, he, List.length_cons] <;> omega

/-- The `forEach` accumulation of `dataIssues` is the sum of the per-record
issue counts. -/
theorem foldl_recordIssues (l : List JsonEvent) (n : Nat) :
    l.foldl (fun acc event => acc + recordIssues event) n
      = n + (l.map recordIssues).sum := by
  induction l generalizing n with
  | nil => simp
  | cons e rest ih => simp [List.foldl_cons, ih, Nat.add_assoc]

/-- C7: the quality score equals
`max(0, 100 − 100·correctionsCount/max(batchSize,1))`, and the confidence
level is `high` exactly above score 80, `medium` exactly in (60, 80], and
`low` exactly at or below 60. -/
theorem c7_quality_score_and_confidence (dataIssues totalRecords : Nat) :
    (finishAssessment dataIssues totalRecords).qualityScore
      = max 0 (100 - 100 * ((finishAssessment dataIssues totalRecords).correctionsCount : ℚ)
          / ((max totalRecords 1 : ℕ) : ℚ)) ∧
    ((finishAssessment dataIssues totalRecords).confidenceLevel = ConfidenceLevel.high
      ↔ 80 < (finishAssessment dataIssues totalRecords).qualityScore) ∧
    ((finishAssessment dataIssues totalRecords).confidenceLevel = ConfidenceLevel.medium
      ↔ 60 < (finishAssessment dataIssues totalRecords).qualityScore
        ∧ (finishAssessment dataIssues totalRecords).qualityScore ≤ 80) ∧
    ((finishAssessment dataIssues totalRecords).confidenceLevel = ConfidenceLevel.low
      ↔ (finishAssessment dataIssues totalRecords).qualityScore ≤ 60) := by
  refine ⟨by simp only [finishAssessment]; ring_nf, ?_, ?_, ?_⟩
  · simp only [finishAssessment]
    split_ifs with h1 h2
    · exact iff_of_true rfl h1
    · exact iff_of_false (by simp) h1
    · exact iff_of_false (by simp) h1
  · simp only [finishAssessment]
    split_ifs with h1 h2
    · exact iff_of_false (by simp) (fun h => (not_le.mpr h1) h.2)
    · exact iff_of_true rfl ⟨h2, le_of_not_lt h1⟩
    · exact iff_of_false (by simp) (fun h => h2 h.1)
  · simp only [finishAssessment]
    split_ifs with h1 h2
    · exact iff_of_false (by simp) (by intro h; linarith)
    · exact iff_of_false (by simp) (by intro h; linarith)
    · exact iff_of_true rfl (le_of_not_lt h2)

/-- C8 counterexample: a JSON record with an 8-character title, an empty
attacker list, and a missing severity contributes 3 corrections, not 2 — the
severity check fires as well. -/
theorem c8_counterexample_three_corrections :
    (preValidateJSON [c8NoSeverityRecord]).correctionsCount = 3 ∧
    (preValidateJSON []).correctionsCount = 0 := ⟨rfl, rfl⟩

/-- C8 (amended): a structured record whose title has exactly 8 characters and
whose attacker-address list is empty or absent adds exactly 2 to the batch
`correctionsCount`, provided its severity is one of the valid enum values (an
invalid or missing severity adds a third correction). -/
theorem c8_record_contributes_two (e : JsonEvent) (pre post : List JsonEvent)
    (htitle : ∃ t, e.title = some t ∧ t.length = 8)
    (hatt : e.attacker_ips = none ∨ e.attacker_ips = some [])
    (hsev : ∃ s, e.severity = some s ∧ s ∈ validSeverities) :
    (preValidateJSON (pre ++ e :: post)).correctionsCount
      = (preValidateJSON (pre ++ post)).correctionsCount + 2 := by
  have hrec : recordIssues e = 2 := by
    obtain ⟨t, ht, hlen⟩ := htitle
    obtain ⟨s, hs, hmem⟩ := hsev
    have htne : t ≠ "" := by
      intro hcontra
      rw [hcontra] at hlen
      simp at hlen
    simp only [validSeverities, List.mem_cons, List.not_mem_nil, or_false] at hmem
    unfold recordIssues
    rw [ht, hs]
    rcases hatt with h | h <;> rw [h] <;>
      rcases hmem with rfl | rfl | rfl | rfl <;>
      simp [htne, hlen, validSeverities]
  simp only [preValidateJSON, finishAssessment]
  rw [foldl_recordIssues, foldl_recordIssues]
  simp [List.sum_append, hrec]
  omega

/-- C8 witness: a concrete record with title `"12345678"`, empty attacker
list, and severity `"high"` adds exactly 2 to the empty batch. -/
theorem c8_record_contributes_two_witness :
    (preValidateJSON [c8ValidSeverityRecord]).correctionsCount
      = (preValidateJSON []).correctionsCount + 2 :=
  c8_record_contributes_two c8ValidSeverityRecord [] []
    ⟨"12345678", rfl, rfl⟩ (Or.inr rfl) ⟨"high", rfl, by decide⟩

/-- C9: a CSV whose lowercased header line does not contain the
`attacker_ips` column name is rejected with the missing-columns error, which
names `attacker_ips`, for every possible sequence of data rows — the outcome
is a function of the header alone, so it is decided before any data row is
parsed.  (Hypotheses: the header line is non-blank and at least one data row
is non-blank, i.e. the file really has a header and a data row.) -/
theorem c9_missing_attacker_header_rejected (header : String) (rows : List String)
    (hheader : jsIsBlank header = false)
    (hrow : ∃ r ∈ rows, jsIsBlank r = false)
    (hmissing : jsIncludes (jsToLower header) "attacker_ips" = false) :
    validateCSVContent (header :: rows)
      = Except.error (CSVError.missingColumns
          (requiredColumns.filter fun col => !(jsIncludes (jsToLower header) col)))
    ∧ "attacker_ips" ∈ requiredColumns.filter fun col => !(jsIncludes (jsToLower header) col) := by
  have hmem : "attacker_ips"
      ∈ requiredColumns.filter fun col => !(jsIncludes (jsToLower header) col) := by
    rw [List.mem_filter]
    exact ⟨by decide, by simp [hmissing]⟩
  refine ⟨?_, hmem⟩
  unfold validateCSVContent
  have hfilter : (header :: rows).filter (fun line => !(jsIsBlank line))
      = header :: rows.filter (fun line => !(jsIsBlank line)) := by
    simp [List.filter_cons, hheader]
  rw [hfilter]
  obtain ⟨r, hr, hrb⟩ := hrow
  have hrmem : r ∈ rows.filter (fun line => !(jsIsBlank line)) :=
    List.mem_filter.mpr ⟨hr, by simp [hrb]⟩
  have hlen : ¬ ((header :: rows.filter fun line => !(jsIsBlank line)).length < 2) := by
    have hpos := List.length_pos.mpr (List.ne_nil_of_mem hrmem)
    simp only [List.length_cons]
    omega
  rw [if_neg hlen]
  have hmlen : 0 < (requiredColumns.filter
      fun col => !(jsIncludes (jsToLower header) col)).length :=
    List.length_pos.mpr (List.ne_nil_of_mem hmem)
  simp only [List.headD_cons]
  rw [if_pos hmlen]

/-- C9 witness: a concrete header with every required column except
`attacker_ips`, over one concrete data row, is rejected naming that column. -/
theorem c9_missing_attacker_header_rejected_witness :
    validateCSVContent
        ["title,description,victim_ips,attack_type,severity", "a,b,c,d,e"]
      = Except.error (CSVError.missingColumns (requiredColumns.filter fun col =>
          !(jsIncludes (jsToLower "title,description,victim_ips,attack_type,severity") col)))
    ∧ "attacker_ips" ∈ requiredColumns.filter (fun col =>
        !(jsIncludes (jsToLower "title,description,victim_ips,attack_type,severity") col)) :=
  c9_missing_attacker_header_rejected
    "title,description,victim_ips,attack_type,severity" ["a,b,c,d,e"]
    (by decide) ⟨"a,b,c,d,e", by simp, by decide⟩ (by decide)

/-- C10 counterexample: the two read-path predicates disagree on an event
tagged `tlp-red` — `isTlpRedEvent` flags it (so the API read path excludes
it), while `filterEventsByTLP` keeps it (its test only matches `tlp:red`). -/
theorem c10_counterexample_dash_red_disagreement :
    isTlpRedEvent dashRedEvent = true ∧
    filterEventsByTLP [dashRedEvent] true = [dashRedEvent] := ⟨rfl, rfl⟩

/-- C10 (amended): the metrics-filter test (`tlp:red` only) is weaker than
`isTlpRedEvent` (`tlp:red` or `tlp-red`): every event `isTlpRedEvent` clears
is kept by `filterEventsByTLP`, i.e. the metrics filter excludes only events
the API read path also excludes; the converse fails on `tlp-red` tags. -/
theorem c10_metrics_filter_weaker_than_api_filter
    (events : List MISPEvent) (e : MISPEvent)
    (he : e ∈ events) (hred : isTlpRedEvent e = false) :
    e ∈ filterEventsByTLP events true := by
  have hp : (e.tags.any fun tag => jsIncludes (jsToLower tag.name) "tlp:red") = false := by
    simp only [isTlpRedEvent, List.any_eq_false, Bool.or_eq_true] at hred
    simp only [List.any_eq_false]
    intro tag htag hcontra
    exact hred tag htag (Or.inl hcontra)
  simp [filterEventsByTLP, List.mem_filter, he, hp]

/-- C10 witness: an event tagged only `tlp:green` passes both predicates. -/
theorem c10_metrics_filter_weaker_than_api_filter_witness :
    greenEvent ∈ filterEventsByTLP [greenEvent] true :=
  c10_metrics_filter_weaker_than_api_filter [greenEvent] greenEvent
    (by simp) (by decide)

/-- When `totalEvents` is non-zero every division in
`calculateSecurityPosture` is finite, and the result is the clamped
penalty formula. -/
theorem securityPosture_formula (m : EventMetrics) (h : m.totalEvents ≠ 0) :
    calculateSecurityPosture m = JsNum.num (max 0 (min 100 (100
      - (m.eventsByThreatLevel.high : ℚ) / (m.totalEvents : ℚ) * 30
      - (m.publishedVsUnpublished.unpublished : ℚ) / (m.totalEvents : ℚ) * 20
      - ((((m.tlpDistribution.find? fun t => t.level == "RED").map
            TlpEntry.count).getD 0 : ℕ) : ℚ) / (m.totalEvents : ℚ) * 25))) := by
  have ht : ((m.totalEvents : ℚ)) ≠ 0 := Nat.cast_ne_zero.mpr h
  unfold calculateSecurityPosture
  rcases hf : m.tlpDistribution.find? (fun t => t.level == "RED") with _ | entry
  · simp [JsNum.div, JsNum.sub, JsNum.mulQ, JsNum.minJ, JsNum.maxJ, ht, hf]
  · by_cases hc : 0 < entry.count
    · simp [JsNum.div, JsNum.sub, JsNum.mulQ, JsNum.minJ, JsNum.maxJ, ht, hf, hc]
    · have hc0 : entry.count = 0 := by omega
      simp [JsNum.div, JsNum.sub, JsNum.mulQ, JsNum.minJ, JsNum.maxJ, ht, hf, hc, hc0]

/-- C6 counterexample: on the metrics of the empty event collection every
penalty ratio is `0 / 0 = NaN`, the clamp propagates it, and the function
returns `NaN` — not a value clamped into `[0, 100]`. -/
theorem c6_counterexample_empty_collection_nan :
    calculateSecurityPosture (calculateMetrics []) = JsNum.nan := by decide

/-- C6 (amended): for metrics produced from a NON-EMPTY event collection,
`calculateSecurityPosture` returns 100 minus the three penalties
(highThreatRatio×30, unpublishedRatio×20, maxSensitiveRatio×25), clamped into
`[0, 100]`; on the empty collection it returns `NaN` instead. -/
theorem c6_security_posture_clamped_formula (events : List MISPEvent)
    (h : events ≠ []) :
    ∃ q : ℚ,
      calculateSecurityPosture (calculateMetrics events) = JsNum.num q ∧
      q = max 0 (min 100 (100
        - ((calculateMetrics events).eventsByThreatLevel.high : ℚ)
            / ((calculateMetrics events).totalEvents : ℚ) * 30
        - ((calculateMetrics events).publishedVsUnpublished.unpublished : ℚ)
            / ((calculateMetrics events).totalEvents : ℚ) * 20
        - (((((calculateMetrics events).tlpDistribution.find? fun t =>
              t.level == "RED").map TlpEntry.count).getD 0 : ℕ) : ℚ)
            / ((calculateMetrics events).totalEvents : ℚ) * 25)) ∧
      0 ≤ q ∧ q ≤ 100 := by
  have hne : (calculateMetrics events).totalEvents ≠ 0 :=
    Nat.pos_iff_ne_zero.mp (List.length_pos.mpr h)
  exact ⟨_, securityPosture_formula _ hne, rfl, le_max_left _ _,
    max_le (by norm_num) (min_le_left _ _)⟩

/-- C6 witness: one unpublished high-threat tagless event scores
`100 − 30 − 20 = 50`. -/
theorem c6_security_posture_clamped_formula_witness :
    calculateSecurityPosture (calculateMetrics [postureSampleEvent])
      = JsNum.num 50 := by
  obtain ⟨q, hq, hval, h0, h100⟩ :=
    c6_security_posture_clamped_formula [postureSampleEvent] (by simp)
  rw [hq, hval]
  have e1 : (calculateMetrics [postureSampleEvent]).eventsByThreatLevel.high = 1 := rfl
  have e2 : (calculateMetrics [postureSampleEvent]).totalEvents = 1 := rfl
  have e3 : (calculateMetrics [postureSampleEvent]).publishedVsUnpublished.unpublished = 1 := rfl
  have e4 : (calculateMetrics [postureSampleEvent]).tlpDistribution.find?
      (fun t => t.level == "RED") = none := rfl
  rw [e1, e2, e3, e4]
  norm_num [min_def, max_def]

end MispDdos
